import Mathlib

/-!
Shallow embedding of the traffic-generation core of go-websocket-benchmark:
the open-loop rate generator (package benchrate) and the closed-loop echo
generator (package benchecho). Byte buffers are lists of Nat, Go int64
counters are Int, and fallible operations return Except. External inputs
(whether a Write returned nil, what the transport delivered) are explicit
parameters.
-/

namespace WsBench

/-- Websocket message types as used by the benchmark (websocket.BinaryMessage
and websocket.TextMessage). -/
inductive MessageType
  | Binary
  | Text
  deriving DecidableEq, Repr

/-- Whether a setup computation ended in the fatal-abort branch
(logging.Fatalf). -/
def isFatal {α : Type} (r : Except String α) : Bool :=
  match r with
  | Except.error _ => true
  | Except.ok _ => false

namespace BenchRate

/-- The per-connection wrapper Conn of package benchrate: the wrapped
net.Conn plus the two atomic counters sendCnt and recvCnt. -/
structure Conn where
  sendCnt : Int
  recvCnt : Int
  deriving DecidableEq, Repr

/-- The session state of BenchRate that the send and receive paths touch:
the batch parameters computed at init (batch, payload, tickRate), the
payload buffer wbuffer and the prebuilt batchBuffer, and the four global
atomic counters. -/
structure State where
  batch : Int
  payload : Int
  tickRate : Int
  wbuffer : List Nat
  batchBuffer : List Nat
  sendTimes : Int
  sendBytes : Int
  recvTimes : Int
  recvBytes : Int
  deriving DecidableEq, Repr

/-- One iteration of the loop body of BenchRate.doOnce for a single
connection. The guard is the source condition
sendCnt - recvCnt + batch < batch*5; writeOk says whether conn.Write of the
batch buffer returned a nil error. On a successful write the global
sendTimes and sendBytes and the connection's sendCnt advance by batch and
batch*Payload; otherwise nothing changes, and in either case no error is
produced. -/
def doOnceConn (br : State) (conn : Conn) (writeOk : Bool) : State × Conn :=
  if conn.sendCnt - conn.recvCnt + br.batch < br.batch * 5 then
    if writeOk then
      ({ br with
          sendTimes := br.sendTimes + br.batch
          sendBytes := br.sendBytes + br.batch * br.payload },
        { conn with sendCnt := conn.sendCnt + br.batch })
    else (br, conn)
  else (br, conn)

/-- BenchRate.onMessage: a delivered message increments the connection's
recvCnt and the global recvTimes and recvBytes exactly when it is a binary
message whose bytes equal the write buffer built at init. -/
def onMessage (br : State) (conn : Conn) (mt : MessageType) (b : List Nat) :
    State × Conn :=
  if mt = MessageType.Binary ∧ b = br.wbuffer then
    ({ br with
        recvTimes := br.recvTimes + 1
        recvBytes := br.recvBytes + (b.length : Int) },
      { conn with recvCnt := conn.recvCnt + 1 })
  else (br, conn)

/-- An event touching one connection during the run: a scheduled send
attempt from doOnce (with the outcome of the Write), or a message delivery
on the asynchronous receive path. -/
inductive RStep
  | send (writeOk : Bool)
  | recv (mt : MessageType) (b : List Nat)
  deriving DecidableEq, Repr

/-- The state of one connection and the session after a sequence of
send-path and receive-path events. -/
def runSteps (br : State) (conn : Conn) : List RStep → State × Conn
  | [] => (br, conn)
  | RStep.send w :: rest =>
      runSteps (doOnceConn br conn w).1 (doOnceConn br conn w).2 rest
  | RStep.recv mt b :: rest =>
      runSteps (onMessage br conn mt b).1 (onMessage br conn mt b).2 rest

/-- The connection state after n tick iterations of doOnce on a connection
that never receives a response (all writes succeed, zero deliveries),
starting from fresh counters. -/
def sendsNoRecv (br : State) : Nat → Conn
  | 0 => { sendCnt := 0, recvCnt := 0 }
  | n + 1 => (doOnceConn br (sendsNoRecv br n) true).2

/-- The guard of BenchRate.init on the result of protocol.BatchBuffers:
logging.Fatalf aborts when tickRate <= 0 or len(batchBuffer) == 0,
otherwise init proceeds with the computed batch buffer, batch count and
tick rate. -/
def initBatchCheck (batchBuffer : List Nat) (batch tickRate : Int) :
    Except String (List Nat × Int × Int) :=
  if tickRate ≤ 0 ∨ batchBuffer.length = 0 then
    Except.error "BenchRate get wrong tickRate, or batchBuffer"
  else
    Except.ok (batchBuffer, batch, tickRate)

end BenchRate

namespace BenchEcho

/-- The outcome of the read side of one echo call: NextReader or the read
loop failed, or a full message of a given type was assembled into
readBuffer with nread bytes of data. -/
inductive ReadOutcome
  | readFailed
  | msg (mt : MessageType) (data : List Nat)
  deriving DecidableEq, Repr

/-- BenchEcho.doOnce, with the borrowed connection's I/O made explicit:
writeOk is whether the write of the encoded frame returned nil, rd is what
the read path produced, and pbuffer is the stored payload buffer returned
by getBuffers for this call. Checks run in source order: write error, read
error, message type, byte equality with pbuffer. -/
def doOnce (pbuffer : List Nat) (writeOk : Bool) (rd : ReadOutcome) :
    Except String Unit :=
  if writeOk = false then Except.error "write failed"
  else
    match rd with
    | ReadOutcome.readFailed => Except.error "read failed"
    | ReadOutcome.msg mt data =>
        if mt ≠ MessageType.Binary then Except.error "invalid message type"
        else if data ≠ pbuffer then
          Except.error "respons data is not equal to origin"
        else Except.ok ()

/-- BenchEcho.getBuffers: r is the value of rand.Intn(len(wbuffers)), and
the index is r taken modulo the buffer count (the source applies the
modulo once more on top of Intn's bound); the same index selects both the
payload buffer and the encoded send buffer. -/
def getBuffers (pbuffers wbuffers : List (List Nat)) (r : Nat) :
    List Nat × List Nat :=
  let idx := r % wbuffers.length
  (pbuffers.getD idx [], wbuffers.getD idx [])

/-- The buffer-pair construction of BenchEcho.init: 1024 payload buffers
(randomBytes i models the i-th rand.Read result) and, at the same index,
the encoded client frame of that same payload (encode models
protocol.EncodeClientMessage applied with BinaryMessage). -/
def initBuffers (randomBytes : Nat → List Nat)
    (encode : List Nat → List Nat) : List (List Nat) × List (List Nat) :=
  ((List.range 1024).map randomBytes,
   (List.range 1024).map (fun i => encode (randomBytes i)))

/-- The buffer fields of a BenchEcho session. -/
structure Buffers where
  pbuffers : List (List Nat)
  wbuffers : List (List Nat)
  deriving DecidableEq, Repr

/-- BenchEcho.doOnce as a transformer of the session's buffer state: the
call reads pbuffers and wbuffers through getBuffers and contains no
assignment to them, so the buffer component comes back unchanged. -/
def doOnceState (bm : Buffers) (r : Nat) (writeOk : Bool)
    (rd : ReadOutcome) : Buffers × Except String Unit :=
  (bm, doOnce (getBuffers bm.pbuffers bm.wbuffers r).1 writeOk rd)

/-- Modelled from the spec: the Calculator of the external perf package
counts each doOnce result; an error return increments Failed, a nil
return increments Success, and no per-call error aborts the run. -/
def recordResult (success failed : Int) (r : Except String Unit) :
    Int × Int :=
  match r with
  | Except.ok _ => (success + 1, failed)
  | Except.error _ => (success, failed + 1)

/-- The WarmupTimes defaulting of BenchEcho.init: a non-positive
configured value becomes 5 times the connection count, capped at
2000000; a positive configured value is kept. -/
def initWarmupTimes (warmupTimes : Int) (numConns : Nat) : Int :=
  if warmupTimes ≤ 0 then
    let w := (numConns : Int) * 5
    if w > 2000000 then 2000000 else w
  else warmupTimes

/-- The Percents defaulting of BenchEcho.init: an empty list becomes
[50, 75, 90, 95, 99]; a non-empty configured list is kept. -/
def initPercents (ps : List Nat) : List Nat :=
  if ps.length = 0 then [50, 75, 90, 95, 99] else ps

/-- The latency percentiles whose values BenchEcho.Report always carries:
the report record has exactly the fields TP50, TP75, TP90, TP95, TP99,
independent of the configured Percents. -/
def reportPercents : List Nat := [50, 75, 90, 95, 99]

/-- The fields of the BenchEchoReport relevant to the measurement claims;
latency values are nanoseconds. -/
structure EchoReport where
  total : Int
  success : Int
  failed : Int
  tps : Int
  minLatency : Int
  avgLatency : Int
  maxLatency : Int
  tp50 : Int
  tp75 : Int
  tp90 : Int
  tp95 : Int
  tp99 : Int
  deriving DecidableEq, Repr

/-- BenchEcho.Report: copies the Calculator's Success, Failed, Min, Avg,
Max and TPS, and fills the five fixed percentile fields with
Calculator.TPN(50) .. TPN(99); tpn abstracts the external nearest-rank
computation of the perf package. -/
def mkReport (total success failed tps minL avgL maxL : Int)
    (tpn : Nat → Int) : EchoReport :=
  { total := total, success := success, failed := failed, tps := tps,
    minLatency := minL, avgLatency := avgL, maxLatency := maxL,
    tp50 := tpn 50, tp75 := tpn 75, tp90 := tpn 90, tp95 := tpn 95,
    tp99 := tpn 99 }

end BenchEcho

/-- The observable actions of Run, in main-goroutine program order.
spawnSampler starts the goroutine that calls PsCounter.Start, sleeps one
PsInterval and closes chCounterStart; recvCounterStart is the main
goroutine receiving from chCounterStart (it completes only after that
one-interval sleep); measureStart and measureEnd bracket the measurement
phase (Calculator.Benchmark in echo mode, the tick-driven worker loops
between their start and the wait-group join in rate mode). -/
inductive RunEvent
  | initPhase
  | warmupPhase
  | spawnSampler
  | startDoneTimer
  | measureStart
  | measureEnd
  | recvCounterStart
  | samplerStop
  deriving DecidableEq, Repr

/-- Program order of the main goroutine of BenchEcho.Run. -/
def benchEchoRunOrder : List RunEvent :=
  [RunEvent.initPhase, RunEvent.warmupPhase, RunEvent.spawnSampler,
   RunEvent.measureStart, RunEvent.measureEnd, RunEvent.recvCounterStart,
   RunEvent.samplerStop]

/-- Program order of the main goroutine of BenchRate.Run. -/
def benchRateRunOrder : List RunEvent :=
  [RunEvent.initPhase, RunEvent.spawnSampler, RunEvent.startDoneTimer,
   RunEvent.measureStart, RunEvent.measureEnd, RunEvent.recvCounterStart,
   RunEvent.samplerStop]

/-- Position of an event in a run order. -/
def eventIdx (l : List RunEvent) (e : RunEvent) : Nat := l.indexOf e

/-- The context.Context value passed to a Go blocking call, as far as
cancellation is observable: context.Background has no done channel, while
a derived context with a cancel function or deadline has one. -/
inductive GoContext
  | background
  | withCancel (parent : GoContext)
  deriving DecidableEq, Repr

/-- Whether waiting under this context can be released by a cancellation
signal. context.Background can never be cancelled. -/
def GoContext.cancellable : GoContext → Bool
  | GoContext.background => false
  | GoContext.withCancel _ => true

/-- One blocking wait on the token-bucket limiter: the context passed to
Wait or WaitN, and the number of tokens requested. -/
structure LimiterCall where
  ctx : GoContext
  tokens : Nat
  deriving DecidableEq, Repr

/-- The limitFn installed by BenchEcho.init when Limit > 0:
limiter.Wait(context.Background()), one token per call. -/
def benchEchoLimitCall : LimiterCall :=
  { ctx := GoContext.background, tokens := 1 }

/-- The limitFn installed by BenchRate.init when SendLimit > 0:
limiter.WaitN(context.Background(), len(batchBuffer)/Payload). -/
def benchRateLimitCall (batchBufferLen payload : Nat) : LimiterCall :=
  { ctx := GoContext.background, tokens := batchBufferLen / payload }

/-- A concrete BenchRate session state used to instantiate the theorems. -/
def sampleRate : BenchRate.State :=
  { batch := 2, payload := 3, tickRate := 1, wbuffer := [7, 7, 7],
    batchBuffer := [1, 2, 3, 4, 5, 6], sendTimes := 0, sendBytes := 0,
    recvTimes := 0, recvBytes := 0 }

/-- A concrete connection state used to instantiate the theorems. -/
def sampleConn : BenchRate.Conn := { sendCnt := 4, recvCnt := 1 }

namespace BenchRate

theorem doOnceConn_batch (br : State) (conn : Conn) (w : Bool) :
    (doOnceConn br conn w).1.batch = br.batch := by
  unfold doOnceConn
  split
  · split <;> rfl
  · rfl

theorem doOnceConn_wbuffer (br : State) (conn : Conn) (w : Bool) :
    (doOnceConn br conn w).1.wbuffer = br.wbuffer := by
  unfold doOnceConn
  split
  · split <;> rfl
  · rfl

theorem onMessage_batch (br : State) (conn : Conn) (mt : MessageType)
    (b : List Nat) : (onMessage br conn mt b).1.batch = br.batch := by
  unfold onMessage
  split <;> rfl

theorem onMessage_wbuffer (br : State) (conn : Conn) (mt : MessageType)
    (b : List Nat) : (onMessage br conn mt b).1.wbuffer = br.wbuffer := by
  unfold onMessage
  split <;> rfl

theorem doOnceConn_outstanding (br : State) (conn : Conn) (w : Bool)
    (h : conn.sendCnt - conn.recvCnt ≤ 5 * br.batch) :
    (doOnceConn br conn w).2.sendCnt - (doOnceConn br conn w).2.recvCnt ≤
      5 * br.batch := by
  unfold doOnceConn
  split
  · split
    · simp only
      omega
    · simpa using h
  · simpa using h

theorem onMessage_outstanding (br : State) (conn : Conn) (mt : MessageType)
    (b : List Nat) (h : conn.sendCnt - conn.recvCnt ≤ 5 * br.batch) :
    (onMessage br conn mt b).2.sendCnt - (onMessage br conn mt b).2.recvCnt ≤
      5 * br.batch := by
  unfold onMessage
  split
  · simp only
    omega
  · simpa using h

theorem runSteps_outstanding (tr : List RStep) (br : State) (conn : Conn)
    (h : conn.sendCnt - conn.recvCnt ≤ 5 * br.batch) :
    (runSteps br conn tr).2.sendCnt - (runSteps br conn tr).2.recvCnt ≤
      5 * br.batch := by
  induction tr generalizing br conn with
  | nil => simpa [runSteps] using h
  | cons s rest ih =>
    cases s with
    | send w =>
      have hb := doOnceConn_batch br conn w
      have h2 := doOnceConn_outstanding br conn w h
      rw [← hb] at h2 ⊢
      exact ih _ _ h2
    | recv mt b =>
      have hb := onMessage_batch br conn mt b
      have h2 := onMessage_outstanding br conn mt b h
      rw [← hb] at h2 ⊢
      exact ih _ _ h2

theorem sendsNoRecv_recvCnt (br : State) (n : Nat) :
    (sendsNoRecv br n).recvCnt = 0 := by
  induction n with
  | zero => rfl
  | succ n ih =>
    unfold sendsNoRecv doOnceConn
    split
    · simpa using ih
    · simpa using ih

theorem sendsNoRecv_sendCnt (br : State) (hb : 1 ≤ br.batch) (n : Nat) :
    (sendsNoRecv br n).sendCnt = br.batch * ((min n 4 : Nat) : Int) := by
  induction n with
  | zero => simp [sendsNoRecv]
  | succ n ih =>
    have hr := sendsNoRecv_recvCnt br n
    unfold sendsNoRecv doOnceConn
    rcases Nat.lt_or_ge n 4 with hn | hn
    · have hmin : min n 4 = n := by omega
      have hmin2 : min (n + 1) 4 = n + 1 := by omega
      have hcond : (sendsNoRecv br n).sendCnt - (sendsNoRecv br n).recvCnt +
          br.batch < br.batch * 5 := by
        rw [ih, hr, hmin]
        have h5 : br.batch * ((n : Int) + 1) < br.batch * 5 := by
          apply mul_lt_mul_of_pos_left _ (by omega)
          omega
        nlinarith [h5]
      rw [if_pos hcond]
      simp only [if_pos rfl]
      rw [ih, hmin, hmin2]
      push_cast
      ring
    · have hmin : min n 4 = 4 := by omega
      have hmin2 : min (n + 1) 4 = 4 := by omega
      have hcond : ¬ ((sendsNoRecv br n).sendCnt - (sendsNoRecv br n).recvCnt +
          br.batch < br.batch * 5) := by
        rw [ih, hr, hmin]
        omega
      rw [if_neg hcond, ih, hmin, hmin2]

theorem sendsNoRecv_plateau (br : State) (hb : 1 ≤ br.batch) (n : Nat)
    (hn : 4 ≤ n) : sendsNoRecv br n = sendsNoRecv br 4 := by
  induction n with
  | zero => omega
  | succ n ih =>
    rcases Nat.lt_or_ge n 4 with h4 | h4
    · have : n + 1 = 4 := by omega
      rw [this]
    · rw [show sendsNoRecv br (n + 1) =
          (doOnceConn br (sendsNoRecv br n) true).2 from rfl, ih h4]
      have hs := sendsNoRecv_sendCnt br hb 4
      have hr := sendsNoRecv_recvCnt br 4
      unfold doOnceConn
      have hcond : ¬ ((sendsNoRecv br 4).sendCnt - (sendsNoRecv br 4).recvCnt +
          br.batch < br.batch * 5) := by
        rw [hs, hr]
        norm_num
        omega
      rw [if_neg hcond]

end BenchRate

/-- C1: in open-loop mode, across any interleaving of scheduled doOnce
send attempts and receive-path deliveries on one connection, the
outstanding unacknowledged count sendCnt - recvCnt never exceeds 5 times
the batch size; a connection whose outstanding count is at or over the
guard threshold receives no scheduled send from doOnce while its receive
count is unchanged; and with zero responses the per-connection send
count plateaus (after 4 ticks nothing changes any more). -/
theorem c1_rate_backpressure_bound (br : BenchRate.State)
    (conn : BenchRate.Conn) (hb : 1 ≤ br.batch)
    (hinv : conn.sendCnt - conn.recvCnt ≤ 5 * br.batch) :
    (∀ tr : List BenchRate.RStep,
      (BenchRate.runSteps br conn tr).2.sendCnt -
        (BenchRate.runSteps br conn tr).2.recvCnt ≤ 5 * br.batch)
    ∧ (∀ w : Bool,
        ¬ conn.sendCnt - conn.recvCnt + br.batch < br.batch * 5 →
        BenchRate.doOnceConn br conn w = (br, conn))
    ∧ (∀ n : Nat, 4 ≤ n →
        BenchRate.sendsNoRecv br n = BenchRate.sendsNoRecv br 4) := by
  refine ⟨fun tr => BenchRate.runSteps_outstanding tr br conn hinv,
    fun w hw => ?_, BenchRate.sendsNoRecv_plateau br hb⟩
  unfold BenchRate.doOnceConn
  rw [if_neg hw]

/-- C1 witness: batch 2 with a connection holding outstanding count 3. -/
theorem c1_rate_backpressure_bound_witness :
    ((BenchRate.runSteps sampleRate sampleConn
        [BenchRate.RStep.send true]).2.sendCnt -
      (BenchRate.runSteps sampleRate sampleConn
        [BenchRate.RStep.send true]).2.recvCnt ≤ 5 * sampleRate.batch)
    ∧ BenchRate.sendsNoRecv sampleRate 7 = BenchRate.sendsNoRecv sampleRate 4 := by
  have h := c1_rate_backpressure_bound sampleRate sampleConn (by decide)
    (by decide)
  exact ⟨h.1 [BenchRate.RStep.send true], h.2.2 7 (by norm_num)⟩

/-- C2: one closed-loop call returns an error exactly when the write
fails, the read fails, the message type is not binary, or the received
bytes differ from the stored payload; in particular a binary response
differing from the payload in exactly one position is counted by the
Calculator as a failure, never a success, and the error is returned as a
value rather than aborting. -/
theorem c2_echo_failure_conditions (pbuffer : List Nat) (writeOk : Bool)
    (rd : BenchEcho.ReadOutcome) :
    (BenchEcho.doOnce pbuffer writeOk rd = Except.ok () ↔
      writeOk = true ∧
        rd = BenchEcho.ReadOutcome.msg MessageType.Binary pbuffer)
    ∧ (∀ data : List Nat, ∀ i : Nat, data.length = pbuffer.length →
        i < pbuffer.length → data.getD i 0 ≠ pbuffer.getD i 0 →
        (∀ j : Nat, j < pbuffer.length → j ≠ i →
          data.getD j 0 = pbuffer.getD j 0) →
        ∀ s f : Int,
          BenchEcho.recordResult s f
            (BenchEcho.doOnce pbuffer writeOk
              (BenchEcho.ReadOutcome.msg MessageType.Binary data)) =
            (s, f + 1)) := by
  constructor
  · cases writeOk with
    | false => simp [BenchEcho.doOnce]
    | true =>
      cases rd with
      | readFailed => simp [BenchEcho.doOnce]
      | msg mt data =>
        cases mt with
        | Binary =>
          by_cases hd : data = pbuffer <;>
            simp [BenchEcho.doOnce, hd]
        | Text => simp [BenchEcho.doOnce]
  · intro data i _hlen hi hdiff _hrest s f
    have hne : data ≠ pbuffer := by
      intro he
      exact hdiff (by rw [he])
    cases writeOk with
    | false => simp [BenchEcho.doOnce, BenchEcho.recordResult]
    | true => simp [BenchEcho.doOnce, BenchEcho.recordResult, hne]

/-- C2 witness: an exact echo succeeds, and a response differing from the
payload in exactly the second byte is counted as a failure. -/
theorem c2_echo_failure_conditions_witness :
    BenchEcho.doOnce [3, 9] true
        (BenchEcho.ReadOutcome.msg MessageType.Binary [3, 9]) =
      Except.ok ()
    ∧ BenchEcho.recordResult 0 0
        (BenchEcho.doOnce [3, 9] true
          (BenchEcho.ReadOutcome.msg MessageType.Binary [3, 8])) = (0, 1) := by
  refine ⟨(c2_echo_failure_conditions [3, 9] true
    (BenchEcho.ReadOutcome.msg MessageType.Binary [3, 9])).1.mpr
      ⟨rfl, rfl⟩, ?_⟩
  exact (c2_echo_failure_conditions [3, 9] true
    (BenchEcho.ReadOutcome.msg MessageType.Binary [3, 8])).2 [3, 8] 1
    (by decide) (by decide) (by decide) (by decide) 0 0

/-- C3: in open-loop mode, for a connection below the backpressure guard,
a successful write of the batch buffer advances the session sendTimes by
batch, the session sendBytes by batch times Payload and the connection
sendCnt by batch, while a failed write leaves every counter unchanged
with no retry; doOnceConn is total and returns the new state, never an
error. -/
theorem c3_rate_send_counting (br : BenchRate.State) (conn : BenchRate.Conn)
    (hbelow : conn.sendCnt - conn.recvCnt + br.batch < br.batch * 5) :
    BenchRate.doOnceConn br conn true =
      ({ br with
          sendTimes := br.sendTimes + br.batch
          sendBytes := br.sendBytes + br.batch * br.payload },
        { conn with sendCnt := conn.sendCnt + br.batch })
    ∧ BenchRate.doOnceConn br conn false = (br, conn) := by
  constructor
  · unfold BenchRate.doOnceConn
    rw [if_pos hbelow]
    rfl
  · unfold BenchRate.doOnceConn
    rw [if_pos hbelow]
    rfl

/-- C3 witness at a concrete below-threshold state. -/
theorem c3_rate_send_counting_witness :
    BenchRate.doOnceConn sampleRate sampleConn true =
      ({ sampleRate with sendTimes := 2, sendBytes := 6 },
        { sampleConn with sendCnt := 6 })
    ∧ BenchRate.doOnceConn sampleRate sampleConn false =
        (sampleRate, sampleConn) := by
  have h := c3_rate_send_counting sampleRate sampleConn (by decide)
  exact ⟨h.1, h.2⟩

/-- C4 counterexample: a Text message whose bytes equal the write buffer
increments nothing, so payload equality alone does not characterise the
receive-side increments. -/
theorem c4_rate_recv_counterexample :
    (BenchRate.onMessage sampleRate sampleConn MessageType.Text
        sampleRate.wbuffer).2.recvCnt ≠ sampleConn.recvCnt + 1
    ∧ BenchRate.onMessage sampleRate sampleConn MessageType.Text
        sampleRate.wbuffer = (sampleRate, sampleConn) := by
  constructor
  · decide
  · decide

/-- C4 (amended): the receive path increments the connection recvCnt by
1 and the session recvTimes by 1 and recvBytes by the message length
exactly when the delivered message is binary and its bytes equal the
write buffer built at init; any other message increments nothing. -/
theorem c4_rate_recv_counting (br : BenchRate.State) (conn : BenchRate.Conn)
    (mt : MessageType) (b : List Nat) :
    (mt = MessageType.Binary ∧ b = br.wbuffer →
      BenchRate.onMessage br conn mt b =
        ({ br with
            recvTimes := br.recvTimes + 1
            recvBytes := br.recvBytes + (b.length : Int) },
          { conn with recvCnt := conn.recvCnt + 1 }))
    ∧ (¬ (mt = MessageType.Binary ∧ b = br.wbuffer) →
        BenchRate.onMessage br conn mt b = (br, conn)) := by
  constructor
  · intro h
    unfold BenchRate.onMessage
    rw [if_pos h]
  · intro h
    unfold BenchRate.onMessage
    rw [if_neg h]

/-- C4 witness: a matching binary message increments all three receive
counters; a non-matching one increments nothing. -/
theorem c4_rate_recv_counting_witness :
    BenchRate.onMessage sampleRate sampleConn MessageType.Binary
        sampleRate.wbuffer =
      ({ sampleRate with recvTimes := 1, recvBytes := 3 },
        { sampleConn with recvCnt := 2 })
    ∧ BenchRate.onMessage sampleRate sampleConn MessageType.Binary [9] =
        (sampleRate, sampleConn) := by
  refine ⟨?_, ?_⟩
  · have h := (c4_rate_recv_counting sampleRate sampleConn MessageType.Binary
      sampleRate.wbuffer).1 ⟨rfl, rfl⟩
    exact h
  · exact (c4_rate_recv_counting sampleRate sampleConn MessageType.Binary
      [9]).2 (by decide)

/-- C5 counterexample: in both run orders the measurement phase starts
before the main goroutine performs the receive on chCounterStart that
waits out the one-PsInterval delay, so Run does not wait one sampling
interval before measurement begins. -/
theorem c5_run_wait_counterexample :
    ¬ eventIdx benchEchoRunOrder RunEvent.recvCounterStart <
        eventIdx benchEchoRunOrder RunEvent.measureStart
    ∧ ¬ eventIdx benchRateRunOrder RunEvent.recvCounterStart <
        eventIdx benchRateRunOrder RunEvent.measureStart := by
  constructor
  · decide
  · decide

/-- C5 (amended): in both modes Run starts the sampler and begins the
measurement phase without waiting; the one-PsInterval wait (the receive
on chCounterStart, closed only after the sampler goroutine sleeps one
interval) happens after measurement ends and before the sampler is
stopped. -/
theorem c5_run_wait_order :
    eventIdx benchEchoRunOrder RunEvent.spawnSampler <
      eventIdx benchEchoRunOrder RunEvent.measureStart
    ∧ eventIdx benchEchoRunOrder RunEvent.measureEnd <
      eventIdx benchEchoRunOrder RunEvent.recvCounterStart
    ∧ eventIdx benchEchoRunOrder RunEvent.recvCounterStart <
      eventIdx benchEchoRunOrder RunEvent.samplerStop
    ∧ eventIdx benchRateRunOrder RunEvent.spawnSampler <
      eventIdx benchRateRunOrder RunEvent.measureStart
    ∧ eventIdx benchRateRunOrder RunEvent.measureEnd <
      eventIdx benchRateRunOrder RunEvent.recvCounterStart
    ∧ eventIdx benchRateRunOrder RunEvent.recvCounterStart <
      eventIdx benchRateRunOrder RunEvent.samplerStop := by
  refine ⟨?_, ?_, ?_, ?_, ?_, ?_⟩ <;> decide

/-- C6 counterexample: the limiter wait installed by BenchEcho.init (and
likewise by BenchRate.init) passes context.Background, which carries no
cancellation signal, so the wait is not cancellable by the run's done
signal. -/
theorem c6_limiter_counterexample :
    ¬ benchEchoLimitCall.ctx.cancellable = true
    ∧ ¬ (benchRateLimitCall 6 3).ctx.cancellable = true := by
  constructor
  · decide
  · decide

/-- C6 (amended): every blocking wait on the token-bucket limiter, in
both modes, runs under context.Background and is therefore not
cancellable by the run's done signal; in rate mode each wait requests
len(batchBuffer)/Payload tokens. -/
theorem c6_limiter_background (batchBufferLen payload : Nat) :
    benchEchoLimitCall.ctx = GoContext.background
    ∧ (benchRateLimitCall batchBufferLen payload).ctx = GoContext.background
    ∧ GoContext.cancellable GoContext.background = false
    ∧ (benchRateLimitCall batchBufferLen payload).tokens =
        batchBufferLen / payload :=
  ⟨rfl, rfl, rfl, rfl⟩

/-- C7: the batch-computation guard of BenchRate.init aborts fatally
exactly when the computed tick rate is non-positive or the batch buffer
is empty; whenever the check passes, the surviving tick rate is at least
1 and the surviving batch buffer is non-empty. -/
theorem c7_rate_init_guard (bb : List Nat) (batch tickRate : Int) :
    (isFatal (BenchRate.initBatchCheck bb batch tickRate) = true ↔
      tickRate ≤ 0 ∨ bb = [])
    ∧ (∀ res, BenchRate.initBatchCheck bb batch tickRate = Except.ok res →
        1 ≤ res.2.2 ∧ res.1 ≠ []) := by
  unfold BenchRate.initBatchCheck
  constructor
  · by_cases h : tickRate ≤ 0 ∨ bb.length = 0
    · rw [if_pos h]
      simp only [isFatal, true_iff]
      rcases h with h | h
      · exact Or.inl h
      · exact Or.inr (List.length_eq_zero.mp h)
    · rw [if_neg h]
      simp only [isFatal]
      constructor
      · intro hc
        simp at hc
      · intro hc
        exfalso
        apply h
        rcases hc with hc | hc
        · exact Or.inl hc
        · exact Or.inr (by rw [hc]; rfl)
  · intro res hres
    by_cases h : tickRate ≤ 0 ∨ bb.length = 0
    · rw [if_pos h] at hres
      cases hres
    · rw [if_neg h] at hres
      cases hres
      push_neg at h
      refine ⟨?_, ?_⟩
      · show (1 : Int) ≤ tickRate
        omega
      · show bb ≠ []
        intro hnil
        exact h.2 (by rw [hnil]; rfl)

/-- C7 witness: a positive tick rate with a non-empty buffer passes the
guard with tick rate at least 1, and the fatal condition is equivalent
to the stated disjunction at a failing input. -/
theorem c7_rate_init_guard_witness :
    (isFatal (BenchRate.initBatchCheck [1, 2] 1 0) = true ↔
      (0 : Int) ≤ 0 ∨ ([1, 2] : List Nat) = [])
    ∧ (1 ≤ (3 : Int) ∧ ([1, 2] : List Nat) ≠ []) := by
  refine ⟨(c7_rate_init_guard [1, 2] 1 0).1, ?_⟩
  exact (c7_rate_init_guard [1, 2] 5 3).2 ([1, 2], 5, 3) rfl

/-- C8: getBuffers selects the stored payload buffer and the stored
encoded frame at one common index below the buffer count; init builds
1024 pairs with the encoded frame at an index being the encoding of the
payload at the same index; one echo call leaves the buffer state
untouched and compares the response against the getBuffers payload; and
the open-loop send and receive paths never change the wbuffer their
duplicate check compares against. -/
theorem c8_buffer_immutability :
    (∀ pbuffers wbuffers : List (List Nat), ∀ r : Nat,
      0 < wbuffers.length →
      ∃ i : Nat, i < wbuffers.length ∧
        BenchEcho.getBuffers pbuffers wbuffers r =
          (pbuffers.getD i [], wbuffers.getD i []))
    ∧ (∀ randomBytes encode,
        (BenchEcho.initBuffers randomBytes encode).1.length = 1024
        ∧ (BenchEcho.initBuffers randomBytes encode).2.length = 1024
        ∧ ∀ i : Nat, i < 1024 →
            (BenchEcho.initBuffers randomBytes encode).2.getD i [] =
              encode ((BenchEcho.initBuffers randomBytes encode).1.getD i []))
    ∧ (∀ bm r writeOk rd,
        (BenchEcho.doOnceState bm r writeOk rd).1 = bm
        ∧ (BenchEcho.doOnceState bm r writeOk rd).2 =
            BenchEcho.doOnce
              (BenchEcho.getBuffers bm.pbuffers bm.wbuffers r).1 writeOk rd)
    ∧ (∀ br conn w,
        (BenchRate.doOnceConn br conn w).1.wbuffer = br.wbuffer)
    ∧ (∀ br conn mt b,
        (BenchRate.onMessage br conn mt b).1.wbuffer = br.wbuffer) := by
  refine ⟨?_, ?_, ?_, BenchRate.doOnceConn_wbuffer,
    BenchRate.onMessage_wbuffer⟩
  · intro pbuffers wbuffers r hlen
    exact ⟨r % wbuffers.length, Nat.mod_lt r hlen, rfl⟩
  · intro randomBytes encode
    refine ⟨by simp [BenchEcho.initBuffers], by simp [BenchEcho.initBuffers], ?_⟩
    intro i hi
    simp [BenchEcho.initBuffers, List.getD, List.getElem?_map,
      List.getElem?_range, hi]
  · intro bm r writeOk rd
    exact ⟨rfl, rfl⟩

/-- C8 witness: a concrete pair of buffer tables with a concrete random
draw, showing the common index and the identity of the encoded entry. -/
theorem c8_buffer_immutability_witness :
    (∃ i : Nat, i < 2 ∧
      BenchEcho.getBuffers [[1], [2]] [[3], [4]] 5 =
        (([[1], [2]] : List (List Nat)).getD i [],
         ([[3], [4]] : List (List Nat)).getD i []))
    ∧ (BenchEcho.initBuffers (fun i => [i]) (fun l => 0 :: l)).2.getD 7 [] =
        0 :: (BenchEcho.initBuffers (fun i => [i]) (fun l => 0 :: l)).1.getD 7 [] := by
  constructor
  · exact c8_buffer_immutability.1 [[1], [2]] [[3], [4]] 5 (by decide)
  · exact (c8_buffer_immutability.2.1 (fun i => [i]) (fun l => 0 :: l)).2.2
      7 (by decide)

/-- C9 counterexample: with the configured percentile list [60] the
report still carries only the fixed percentiles 50, 75, 90, 95, 99, so
the requested percentile 60 is absent from the report. -/
theorem c9_echo_report_counterexample :
    60 ∈ BenchEcho.initPercents [60]
    ∧ 60 ∉ BenchEcho.reportPercents := by
  constructor
  · decide
  · decide

/-- C9 (amended): the echo report carries success and failure counts,
TPS, min, avg and max latency, and the latency percentiles of the fixed
list 50, 75, 90, 95, 99, each field holding Calculator.TPN of that rank;
this fixed list coincides with the requested percentiles exactly when
Percents is left unconfigured, in which case init defaults Percents to
the same list. -/
theorem c9_echo_report_fields (total success failed tps minL avgL maxL : Int)
    (tpn : Nat → Int) :
    (BenchEcho.mkReport total success failed tps minL avgL maxL tpn).success =
      success
    ∧ (BenchEcho.mkReport total success failed tps minL avgL maxL tpn).failed =
      failed
    ∧ (BenchEcho.mkReport total success failed tps minL avgL maxL tpn).tps = tps
    ∧ (BenchEcho.mkReport total success failed tps minL avgL maxL tpn).minLatency =
      minL
    ∧ (BenchEcho.mkReport total success failed tps minL avgL maxL tpn).avgLatency =
      avgL
    ∧ (BenchEcho.mkReport total success failed tps minL avgL maxL tpn).maxLatency =
      maxL
    ∧ (BenchEcho.mkReport total success failed tps minL avgL maxL tpn).tp50 =
      tpn 50
    ∧ (BenchEcho.mkReport total success failed tps minL avgL maxL tpn).tp75 =
      tpn 75
    ∧ (BenchEcho.mkReport total success failed tps minL avgL maxL tpn).tp90 =
      tpn 90
    ∧ (BenchEcho.mkReport total success failed tps minL avgL maxL tpn).tp95 =
      tpn 95
    ∧ (BenchEcho.mkReport total success failed tps minL avgL maxL tpn).tp99 =
      tpn 99
    ∧ BenchEcho.initPercents [] = BenchEcho.reportPercents :=
  ⟨rfl, rfl, rfl, rfl, rfl, rfl, rfl, rfl, rfl, rfl, rfl, rfl⟩

/-- C10: BenchEcho.init replaces a non-positive configured WarmupTimes
with 5 times the connection count capped at 2000000, and keeps a
positive configured value unchanged. -/
theorem c10_echo_warmup_default (warmupTimes : Int) (numConns : Nat) :
    (warmupTimes ≤ 0 →
      BenchEcho.initWarmupTimes warmupTimes numConns =
        min ((numConns : Int) * 5) 2000000)
    ∧ (0 < warmupTimes →
      BenchEcho.initWarmupTimes warmupTimes numConns = warmupTimes) := by
  unfold BenchEcho.initWarmupTimes
  constructor
  · intro h
    rw [if_pos h]
    show (if (numConns : Int) * 5 > 2000000 then (2000000 : Int)
      else (numConns : Int) * 5) = min ((numConns : Int) * 5) 2000000
    split <;> omega
  · intro h
    rw [if_neg (by omega)]

/-- C10 witness: the cap binds at 500000 connections, the product is
kept at 3 connections, and a configured value 7 is kept. -/
theorem c10_echo_warmup_default_witness :
    BenchEcho.initWarmupTimes 0 500000 = min ((500000 : Int) * 5) 2000000
    ∧ BenchEcho.initWarmupTimes 0 3 = min ((3 : Int) * 5) 2000000
    ∧ BenchEcho.initWarmupTimes 7 3 = 7 :=
  ⟨(c10_echo_warmup_default 0 500000).1 (by norm_num),
   (c10_echo_warmup_default 0 3).1 (by norm_num),
   (c10_echo_warmup_default 7 3).2 (by norm_num)⟩

end WsBench
